import Mathlib

/-!
Verification development for the webpage-classifier repository
(`classifier.py` and `main.py`), as a shallow embedding in Lean 4.

The classification pipeline (`classifier.py`) is embedded as pure
functions.  External effects are made explicit parameters:

* the outcome of each browser render attempt is a function
  `attempts : Nat → AttemptOutcome α` giving, per 1-based attempt number,
  whether the attempt raised before the screenshot file was written,
  raised after it was written, or fully succeeded with image data;
* the multimodal model invocation is a `ModelEnv` carrying, per mode,
  either `some content` (the model responded with that text) or `none`
  (the invocation raised an exception);
* classification functions return a `ClassifyTrace` that records the
  returned string together with how many model calls of each mode were
  performed, so call-count claims can be stated.

The HTTP layer (`main.py`) is embedded as explicit state passing over a
`DB` value that mirrors the two MongoDB collections.
-/

/-- Maximum number of retry attempts, `MAX_RETRIES = 2` in `classifier.py`. -/
def MAX_RETRIES : Nat := 2

/-- Embedding of Python `s.startswith(p)` for a single literal: list-of-chars
prefix test. -/
def startswith (s p : String) : Bool := p.data.isPrefixOf s.data

/-- Embedding of `format_url` in `classifier.py`: if the URL starts with
neither `http://` nor `https://`, prepend `http://`. -/
def format_url (url : String) : String :=
  if startswith url "http://" || startswith url "https://" then url
  else "http://" ++ url

/-- Outcome of a single render attempt inside `load_and_screenshot`.
`failBeforeWrite` models an exception raised in `p.firefox.launch`,
`page.goto` or `page.screenshot` before the screenshot file exists;
`failAfterWrite` models an exception raised after `page.screenshot`
wrote the file (in `browser.close`, the file read, or the encode);
`success` models the attempt running to completion, producing image data. -/
inductive AttemptOutcome (α : Type) where
  | failBeforeWrite : AttemptOutcome α
  | failAfterWrite : AttemptOutcome α
  | success : α → AttemptOutcome α
deriving DecidableEq

/-- The image data an attempt returns, `none` when it raised. -/
def outcomeResult {α : Type} : AttemptOutcome α → Option α
  | .success img => some img
  | .failBeforeWrite => none
  | .failAfterWrite => none

/-- Whether the screenshot file exists on disk after running one attempt,
given whether it existed before.  `page.screenshot` overwrites the file;
`os.remove` (reached only on the success path) deletes it. -/
def stepFile {α : Type} : AttemptOutcome α → Bool → Bool
  | .failBeforeWrite, f => f
  | .failAfterWrite, _ => true
  | .success _, _ => false

/-- Observable state when `load_and_screenshot` returns: the returned value
(`some` image data or `none`), the number of render attempts that were
invoked, and whether the screenshot file is still on disk. -/
structure CaptureState (α : Type) where
  result : Option α
  calls : Nat
  fileExists : Bool

/-- The retry loop of `load_and_screenshot`, `for attempt in
range(1, retries + 1)`.  `attempt` is the current 1-based attempt number
and the `Nat` argument is the number of loop iterations still available
(`retries - attempt + 1`); `attempt == retries` corresponds to the
remaining count being zero after this iteration. -/
def captureGo {α : Type} (attempts : Nat → AttemptOutcome α) (attempt : Nat)
    (file : Bool) : Nat → CaptureState α
  | 0 => ⟨none, 0, file⟩
  | remaining + 1 =>
    match outcomeResult (attempts attempt) with
    | some img => ⟨some img, 1, stepFile (attempts attempt) file⟩
    | none =>
      if remaining = 0 then ⟨none, 1, stepFile (attempts attempt) file⟩
      else
        let s := captureGo attempts (attempt + 1) (stepFile (attempts attempt) file) remaining
        ⟨s.result, s.calls + 1, s.fileExists⟩

/-- Embedding of `load_and_screenshot` in `classifier.py`: run up to
`retries` attempts, starting at attempt 1 with no screenshot file on disk;
return the first successful image, or `none` when all attempts fail. -/
def load_and_screenshot {α : Type} (attempts : Nat → AttemptOutcome α)
    (retries : Nat) : CaptureState α :=
  captureGo attempts 1 false retries

/-- The three canonical labels, the list at line 123 of `classifier.py`. -/
def canonical_labels : List String :=
  ["generic parked landing page", "live website", "nonactive domain"]

/-- The closed result set the spec describes: the three canonical labels
plus the failure sentinel. -/
def allowed_results : List String :=
  ["generic parked landing page", "live website", "nonactive domain",
   "classification failure"]

/-- Embedding of Python `str.strip()` with no argument: remove leading and
trailing whitespace characters. -/
def strip (s : String) : String :=
  ⟨((s.data.dropWhile Char.isWhitespace).reverse.dropWhile
      Char.isWhitespace).reverse⟩

/-- Embedding of Python `str.lower()`: lower-case every character. -/
def lower (s : String) : String := ⟨s.data.map Char.toLower⟩

/-- The model side of a classification: for each mode, `some content` when
`openai.ChatCompletion.create` (plus response field access) yields the
text `content`, `none` when it raises an exception. -/
structure ModelEnv where
  visualResponse : Option String
  textResponse : Option String

/-- What one call of a classification entry point did: the string it
returned, and how many model invocations of each mode it performed. -/
structure ClassifyTrace where
  result : String
  visualCalls : Nat
  textCalls : Nat
deriving DecidableEq

/-- Embedding of `gpt_classification_without_image` in `classifier.py`:
one text-only model call; on success return the response text after
`.strip()`, on exception return the failure sentinel. -/
def gpt_classification_without_image (url : String) (env : ModelEnv) :
    ClassifyTrace :=
  match env.textResponse with
  | some content => ⟨strip content, 0, 1⟩
  | none => ⟨"classification failure", 0, 1⟩

/-- Embedding of `gpt_classification` in `classifier.py`: capture a
screenshot with `load_and_screenshot`; on `none` fall back to
`gpt_classification_without_image`; otherwise make one visual model call,
normalize the response with `.strip().lower()` and coerce any text outside
the three canonical labels to `"nonactive domain"`; an exception from the
model call yields the failure sentinel. -/
def gpt_classification (url : String) (attempts : Nat → AttemptOutcome String)
    (env : ModelEnv) : ClassifyTrace :=
  match (load_and_screenshot attempts MAX_RETRIES).result with
  | none => gpt_classification_without_image url env
  | some _ =>
    match env.visualResponse with
    | some content =>
      let result := lower (strip content)
      if canonical_labels.contains result then ⟨result, 1, 0⟩
      else ⟨"nonactive domain", 1, 0⟩
    | none => ⟨"classification failure", 1, 0⟩

-- Helper lemmas about list prefixes and string append, for `format_url`.

lemma isPrefixOf_append_self (l m : List Char) :
    l.isPrefixOf (l ++ m) = true := by
  induction l with
  | nil => simp [List.isPrefixOf]
  | cons a as ih => simp [List.isPrefixOf, ih]

lemma startswith_http_append (s : String) :
    startswith ("http://" ++ s) "http://" = true := by
  simp [startswith, String.data_append, isPrefixOf_append_self]

/-- C6: URL normalization is idempotent: a URL already starting with
`http://` or `https://` is returned unchanged, any other input gets exactly
one `http://` prepended, and `format_url` applied twice equals `format_url`
applied once. -/
theorem c6_format_url_idempotent (url : String) :
    ((startswith url "http://" || startswith url "https://") = true →
      format_url url = url)
    ∧ ((startswith url "http://" || startswith url "https://") = false →
      format_url url = "http://" ++ url)
    ∧ format_url (format_url url) = format_url url := by
  refine ⟨fun h => by simp [format_url, h], fun h => by simp [format_url, h], ?_⟩
  by_cases h : (startswith url "http://" || startswith url "https://") = true
  · simp [format_url, h]
  · have h' : (startswith url "http://" || startswith url "https://") = false :=
      Bool.not_eq_true _ ▸ (by simpa using h)
    simp [format_url, h', startswith_http_append]

/-- Witness for C6 at the concrete inputs `"example.com"` (no scheme) and
`"https://a.com"` (scheme present). -/
theorem c6_format_url_idempotent_witness :
    format_url "example.com" = "http://" ++ "example.com"
    ∧ format_url "https://a.com" = "https://a.com"
    ∧ format_url (format_url "example.com") = format_url "example.com" :=
  ⟨(c6_format_url_idempotent "example.com").2.1 (by decide),
   (c6_format_url_idempotent "https://a.com").1 (by decide),
   (c6_format_url_idempotent "example.com").2.2⟩

/-- C10: the scheme check in `format_url` is case-sensitive: for the input
`"HTTP://example.com"` it prepends `http://` anyway instead of leaving the
scheme-qualified URL unchanged. -/
theorem c10_scheme_case_sensitive :
    format_url "HTTP://example.com" = "http://HTTP://example.com"
    ∧ format_url "HTTP://example.com" ≠ "HTTP://example.com" := by
  refine ⟨by decide, by decide⟩

-- Helper lemmas about the retry loop of `load_and_screenshot`.

lemma captureGo_success {α : Type} (attempts : Nat → AttemptOutcome α) :
    ∀ (k fuel a : Nat) (file : Bool) (img : α),
      (∀ i, a ≤ i → i < a + k → outcomeResult (attempts i) = none) →
      attempts (a + k) = AttemptOutcome.success img → k < fuel →
      (captureGo attempts a file fuel).result = some img ∧
      (captureGo attempts a file fuel).calls = k + 1 := by
  intro k
  induction k with
  | zero =>
    intro fuel a file img hfail hsucc hlt
    match fuel, hlt with
    | fuel + 1, _ =>
      simp only [Nat.add_zero] at hsucc
      simp [captureGo, hsucc, outcomeResult]
  | succ k ih =>
    intro fuel a file img hfail hsucc hlt
    match fuel, hlt with
    | fuel + 1, hlt =>
      have hfa : outcomeResult (attempts a) = none :=
        hfail a (Nat.le_refl a) (by omega)
      have hfuel : fuel ≠ 0 := by omega
      have hrec := ih fuel (a + 1) (stepFile (attempts a) file) img
        (fun i h1 h2 => hfail i (by omega) (by omega))
        (by have h3 : a + 1 + k = a + (k + 1) := by omega
            rw [h3]; exact hsucc)
        (by omega)
      simp [captureGo, hfa, hfuel, hrec.1, hrec.2]

lemma captureGo_exhaust {α : Type} (attempts : Nat → AttemptOutcome α)
    (hfail : ∀ i, outcomeResult (attempts i) = none) :
    ∀ (fuel a : Nat) (file : Bool),
      (captureGo attempts a file fuel).result = none ∧
      (captureGo attempts a file fuel).calls = fuel := by
  intro fuel
  induction fuel with
  | zero => intro a file; simp [captureGo]
  | succ fuel ih =>
    intro a file
    by_cases hz : fuel = 0
    · subst hz; simp [captureGo, hfail a]
    · have hrec := ih (a + 1) (stepFile (attempts a) file)
      simp [captureGo, hfail a, hz, hrec.1, hrec.2]

lemma captureGo_isSome_file {α : Type} (attempts : Nat → AttemptOutcome α) :
    ∀ (fuel a : Nat) (file : Bool),
      (captureGo attempts a file fuel).result.isSome = true →
      (captureGo attempts a file fuel).fileExists = false := by
  intro fuel
  induction fuel with
  | zero => intro a file h; simp [captureGo] at h
  | succ fuel ih =>
    intro a file h
    cases ho : outcomeResult (attempts a) with
    | some img =>
      cases ha : attempts a with
      | success i => simp [captureGo, ha, outcomeResult, stepFile]
      | failBeforeWrite => rw [ha] at ho; simp [outcomeResult] at ho
      | failAfterWrite => rw [ha] at ho; simp [outcomeResult] at ho
    | none =>
      by_cases hz : fuel = 0
      · subst hz; simp [captureGo, ho] at h
      · simp [captureGo, ho, hz] at h ⊢
        exact ih (a + 1) (stepFile (attempts a) file) h

lemma captureGo_no_afterwrite_file {α : Type} (attempts : Nat → AttemptOutcome α)
    (hno : ∀ i, attempts i ≠ AttemptOutcome.failAfterWrite) :
    ∀ (fuel a : Nat), (captureGo attempts a false fuel).fileExists = false := by
  intro fuel
  induction fuel with
  | zero => intro a; simp [captureGo]
  | succ fuel ih =>
    intro a
    cases ha : attempts a with
    | failAfterWrite => exact absurd ha (hno a)
    | success img => simp [captureGo, ha, outcomeResult, stepFile]
    | failBeforeWrite =>
      by_cases hz : fuel = 0
      · simp [captureGo, ha, outcomeResult, stepFile, hz]
      · simp [captureGo, ha, outcomeResult, stepFile, hz]
        exact ih (a + 1)

/-- C3: for every render function, if it fails on attempts 1..k with
k strictly below the attempt budget and succeeds on attempt k+1, then
`load_and_screenshot` returns that image after exactly k+1 invocations;
and if it fails on every attempt, `load_and_screenshot` returns `none`
after exactly `retries` invocations. -/
theorem c3_renderer_retry {α : Type} (attempts : Nat → AttemptOutcome α)
    (retries : Nat) :
    (∀ (k : Nat) (img : α),
      (∀ i, 1 ≤ i → i ≤ k → outcomeResult (attempts i) = none) →
      attempts (k + 1) = AttemptOutcome.success img → k < retries →
      (load_and_screenshot attempts retries).result = some img ∧
      (load_and_screenshot attempts retries).calls = k + 1)
    ∧ ((∀ i, outcomeResult (attempts i) = none) →
      (load_and_screenshot attempts retries).result = none ∧
      (load_and_screenshot attempts retries).calls = retries) := by
  constructor
  · intro k img hfail hsucc hlt
    exact captureGo_success attempts k retries 1 false img
      (fun i h1 h2 => hfail i h1 (by omega))
      (by rw [Nat.add_comm 1 k]; exact hsucc) hlt
  · intro hfail
    exact captureGo_exhaust attempts hfail retries 1 false

/-- Concrete render schedule failing on attempt 1 and succeeding on
attempt 2. -/
def retryAttempts : Nat → AttemptOutcome Nat := fun i =>
  if i = 2 then AttemptOutcome.success 42 else AttemptOutcome.failBeforeWrite

/-- Concrete render schedule failing on every attempt. -/
def alwaysFailNat : Nat → AttemptOutcome Nat := fun _ =>
  AttemptOutcome.failBeforeWrite

/-- Witness for C3: one failure then success returns the image in 2 calls;
always failing returns `none` after `MAX_RETRIES = 2` calls. -/
theorem c3_renderer_retry_witness :
    ((load_and_screenshot retryAttempts 2).result = some 42
      ∧ (load_and_screenshot retryAttempts 2).calls = 1 + 1)
    ∧ ((load_and_screenshot alwaysFailNat 2).result = none
      ∧ (load_and_screenshot alwaysFailNat 2).calls = 2) := by
  refine ⟨(c3_renderer_retry retryAttempts 2).1 1 42 ?_ (by decide) (by decide),
    (c3_renderer_retry alwaysFailNat 2).2 (fun i => rfl)⟩
  intro i h1 h2
  have h3 : i = 1 := Nat.le_antisymm h2 h1
  subst h3
  decide

/-- C7 counterexample: when every attempt raises after the screenshot file
has been written (e.g. in `browser.close` or while reading the file),
`load_and_screenshot` returns with the screenshot file still on disk, so
the temporary file is not deleted on every exit path. -/
theorem c7_counterexample :
    (load_and_screenshot
      (fun _ => (AttemptOutcome.failAfterWrite : AttemptOutcome String))
      MAX_RETRIES).fileExists = true := by
  decide

/-- C7 amended: the screenshot file is deleted before return on every
successful exit path, and whenever no attempt raises after the screenshot
write; only a failure occurring between the screenshot write and the
`os.remove` call (and not followed by a later cleaning attempt) can leave
the file behind. -/
theorem c7_amended_file_cleanup {α : Type} (attempts : Nat → AttemptOutcome α)
    (retries : Nat) :
    ((load_and_screenshot attempts retries).result.isSome = true →
      (load_and_screenshot attempts retries).fileExists = false)
    ∧ ((∀ i, attempts i ≠ AttemptOutcome.failAfterWrite) →
      (load_and_screenshot attempts retries).fileExists = false) :=
  ⟨fun h => captureGo_isSome_file attempts retries 1 false h,
   fun h => captureGo_no_afterwrite_file attempts h retries 1⟩

/-- Concrete render schedule succeeding immediately with image data. -/
def succeedImg : Nat → AttemptOutcome String := fun _ =>
  AttemptOutcome.success "img"

/-- Concrete render schedule raising before the write on every attempt. -/
def alwaysFailStr : Nat → AttemptOutcome String := fun _ =>
  AttemptOutcome.failBeforeWrite

/-- Witness for C7 amended: a successful capture leaves no file, and an
always-fail-before-write capture leaves no file either. -/
theorem c7_amended_file_cleanup_witness :
    (load_and_screenshot succeedImg MAX_RETRIES).fileExists = false
    ∧ (load_and_screenshot alwaysFailStr MAX_RETRIES).fileExists = false :=
  ⟨(c7_amended_file_cleanup succeedImg MAX_RETRIES).1 (by decide),
   (c7_amended_file_cleanup alwaysFailStr MAX_RETRIES).2 (fun i h => by
     simp [alwaysFailStr] at h)⟩

-- Helper lemma linking the canonical-label check to the closed result set.

lemma mem_allowed_of_canonical (s : String)
    (h : canonical_labels.contains s = true) : s ∈ allowed_results := by
  simp [canonical_labels] at h
  rcases h with h | h | h <;> subst h <;> decide

/-- C1 counterexample: when rendering always fails, the text-only fallback
returns the raw stripped model text, so the classification entry point can
return a string outside the closed four-string set. -/
theorem c1_counterexample :
    (gpt_classification "example.com" alwaysFailStr
      ⟨none, some "I cannot determine"⟩).result ∉ allowed_results := by
  decide

/-- C1 amended: when the screenshot capture succeeds, `gpt_classification`
returns one of the four strings and never raises; in text-only fallback
mode a model exception still yields the failure sentinel, but a successful
model response is returned after stripping only and may be any text. -/
theorem c1_amended_closed_labels (url : String)
    (attempts : Nat → AttemptOutcome String) (env : ModelEnv) :
    ((load_and_screenshot attempts MAX_RETRIES).result.isSome = true →
      (gpt_classification url attempts env).result ∈ allowed_results)
    ∧ ((load_and_screenshot attempts MAX_RETRIES).result = none →
      env.textResponse = none →
      (gpt_classification url attempts env).result = "classification failure") := by
  constructor
  · intro h
    cases himg : (load_and_screenshot attempts MAX_RETRIES).result with
    | none => rw [himg] at h; simp at h
    | some img =>
      cases henv : env.visualResponse with
      | none => simp [gpt_classification, himg, henv]; decide
      | some content =>
        by_cases hc : canonical_labels.contains (lower (strip content)) = true
        · have hm : lower (strip content) ∈ canonical_labels := by simpa using hc
          simp [gpt_classification, himg, henv, hm]
          exact mem_allowed_of_canonical _ hc
        · have hm : lower (strip content) ∉ canonical_labels := by simpa using hc
          simp [gpt_classification, himg, henv, hm]
          decide
  · intro h1 h2
    simp [gpt_classification, h1, gpt_classification_without_image, h2]

/-- Witness for C1 amended: a successful capture with model answer
`"Live Website"` lands in the closed set, and a failed capture with a
model exception yields the sentinel. -/
theorem c1_amended_closed_labels_witness :
    (gpt_classification "example.com" succeedImg
      ⟨some "Live Website", none⟩).result ∈ allowed_results
    ∧ (gpt_classification "example.com" alwaysFailStr
      ⟨none, none⟩).result = "classification failure" :=
  ⟨(c1_amended_closed_labels "example.com" succeedImg
      ⟨some "Live Website", none⟩).1 (by decide),
   (c1_amended_closed_labels "example.com" alwaysFailStr
      ⟨none, none⟩).2 (by decide) rfl⟩

/-- C2 counterexample: in text-only fallback mode the response
`"Live Website"` is returned as-is, neither lower-cased nor coerced, so
the claimed normalization does not happen in both modes. -/
theorem c2_counterexample :
    (gpt_classification "example.com" alwaysFailStr
      ⟨none, some "Live Website"⟩).result = "Live Website"
    ∧ (gpt_classification "example.com" alwaysFailStr
      ⟨none, some "Live Website"⟩).result ≠ "live website"
    ∧ (gpt_classification "example.com" alwaysFailStr
      ⟨none, some "Live Website"⟩).result ≠ "nonactive domain" := by
  refine ⟨by decide, by decide, by decide⟩

/-- C2 amended: in visual mode the response is stripped and lower-cased,
passed through when it matches a canonical label exactly and coerced to
`"nonactive domain"` otherwise; in text-only fallback mode the response is
only stripped and returned as-is, with no lower-casing and no coercion. -/
theorem c2_amended_normalization (url content : String)
    (attempts : Nat → AttemptOutcome String) (env : ModelEnv) :
    ((load_and_screenshot attempts MAX_RETRIES).result.isSome = true →
      env.visualResponse = some content →
      canonical_labels.contains (lower (strip content)) = true →
      (gpt_classification url attempts env).result = lower (strip content))
    ∧ ((load_and_screenshot attempts MAX_RETRIES).result.isSome = true →
      env.visualResponse = some content →
      canonical_labels.contains (lower (strip content)) = false →
      (gpt_classification url attempts env).result = "nonactive domain")
    ∧ ((load_and_screenshot attempts MAX_RETRIES).result = none →
      env.textResponse = some content →
      (gpt_classification url attempts env).result = strip content) := by
  refine ⟨?_, ?_, ?_⟩
  · intro h henv hc
    have hm : lower (strip content) ∈ canonical_labels := by simpa using hc
    cases himg : (load_and_screenshot attempts MAX_RETRIES).result with
    | none => rw [himg] at h; simp at h
    | some img => simp [gpt_classification, himg, henv, hm]
  · intro h henv hc
    have hm : lower (strip content) ∉ canonical_labels := by simpa using hc
    cases himg : (load_and_screenshot attempts MAX_RETRIES).result with
    | none => rw [himg] at h; simp at h
    | some img => simp [gpt_classification, himg, henv, hm]
  · intro h henv
    simp [gpt_classification, h, gpt_classification_without_image, henv]

/-- Witness for C2 amended: visual mode maps `" Live Website "` to
`"live website"`, visual mode coerces `"I cannot determine"` to
`"nonactive domain"`, and text-only mode returns `" hello "` stripped but
otherwise untouched. -/
theorem c2_amended_normalization_witness :
    (gpt_classification "example.com" succeedImg
      ⟨some " Live Website ", none⟩).result = lower (strip " Live Website ")
    ∧ (gpt_classification "example.com" succeedImg
      ⟨some "I cannot determine", none⟩).result = "nonactive domain"
    ∧ (gpt_classification "example.com" alwaysFailStr
      ⟨none, some " hello "⟩).result = strip " hello " :=
  ⟨(c2_amended_normalization "example.com" " Live Website " succeedImg
      ⟨some " Live Website ", none⟩).1 (by decide) rfl (by decide),
   (c2_amended_normalization "example.com" "I cannot determine" succeedImg
      ⟨some "I cannot determine", none⟩).2.1 (by decide) rfl (by decide),
   (c2_amended_normalization "example.com" " hello " alwaysFailStr
      ⟨none, some " hello "⟩).2.2 (by decide) rfl⟩

/-- C4: every classification performs exactly one model invocation (visual
or text-only, never both, never zero, never a retry), and an exception in
the invocation actually performed is caught and mapped to the sentinel
`"classification failure"` instead of propagating. -/
theorem c4_model_failure_sentinel (url : String)
    (attempts : Nat → AttemptOutcome String) (env : ModelEnv) :
    ((gpt_classification url attempts env).visualCalls
      + (gpt_classification url attempts env).textCalls = 1)
    ∧ ((load_and_screenshot attempts MAX_RETRIES).result.isSome = true →
      env.visualResponse = none →
      (gpt_classification url attempts env).result = "classification failure")
    ∧ ((load_and_screenshot attempts MAX_RETRIES).result = none →
      env.textResponse = none →
      (gpt_classification url attempts env).result = "classification failure") := by
  refine ⟨?_, ?_, ?_⟩
  · cases himg : (load_and_screenshot attempts MAX_RETRIES).result with
    | none =>
      cases henv : env.textResponse <;>
        simp [gpt_classification, himg, gpt_classification_without_image, henv]
    | some img =>
      cases henv : env.visualResponse with
      | none => simp [gpt_classification, himg, henv]
      | some content =>
        simp only [gpt_classification, himg, henv]
        split <;> rfl
  · intro h henv
    cases himg : (load_and_screenshot attempts MAX_RETRIES).result with
    | none => rw [himg] at h; simp at h
    | some img => simp [gpt_classification, himg, henv]
  · intro h henv
    simp [gpt_classification, h, gpt_classification_without_image, henv]

/-- Witness for C4: a successful capture with a raising model call yields
the sentinel, as does a failed capture with a raising text-only call. -/
theorem c4_model_failure_sentinel_witness :
    ((gpt_classification "example.com" succeedImg ⟨none, none⟩).visualCalls
      + (gpt_classification "example.com" succeedImg ⟨none, none⟩).textCalls = 1)
    ∧ (gpt_classification "example.com" succeedImg
      ⟨none, none⟩).result = "classification failure" :=
  ⟨(c4_model_failure_sentinel "example.com" succeedImg ⟨none, none⟩).1,
   (c4_model_failure_sentinel "example.com" succeedImg
      ⟨none, none⟩).2.1 (by decide) rfl⟩

/-- C5: whenever the capture returns `none`, `gpt_classification` always
falls back to exactly one text-only model call and performs no visual
call, for every model environment — one consistent fallback variant, with
a model call made on every such input. -/
theorem c5_fallback_text_mode (url : String)
    (attempts : Nat → AttemptOutcome String) (env : ModelEnv)
    (h : (load_and_screenshot attempts MAX_RETRIES).result = none) :
    (gpt_classification url attempts env).textCalls = 1
    ∧ (gpt_classification url attempts env).visualCalls = 0 := by
  cases henv : env.textResponse <;>
    simp [gpt_classification, h, gpt_classification_without_image, henv]

/-- Witness for C5: with every render attempt failing, the text-only mode
is invoked exactly once. -/
theorem c5_fallback_text_mode_witness :
    (gpt_classification "example.com" alwaysFailStr
      ⟨none, some "live website"⟩).textCalls = 1
    ∧ (gpt_classification "example.com" alwaysFailStr
      ⟨none, some "live website"⟩).visualCalls = 0 :=
  c5_fallback_text_mode "example.com" alwaysFailStr
    ⟨none, some "live website"⟩ (by decide)

/-!
Embedding of the HTTP layer in `main.py`.  The two MongoDB collections are
a `DB` value; each endpoint is a function from the current `DB` (plus
request parameters) to a response and the new `DB`.  `classify_url`
additionally receives the string the classification pipeline would return
for this URL and reports whether the pipeline was actually invoked.
-/

/-- A document of the `api_keys` collection (`APIKey` model in `main.py`),
with `created_at` as an abstract timestamp. -/
structure APIKey where
  api_key : String
  created_at : Nat
  status : String
  rate_limit : Option Nat
  usage_count : Nat
deriving DecidableEq

/-- A document of the `classified_urls` collection. -/
structure ClassifiedUrl where
  url : String
  classification : String
  timestamp : Nat
deriving DecidableEq

/-- The database: the two collections used by `main.py`. -/
structure DB where
  api_keys : List APIKey
  classified_urls : List ClassifiedUrl
deriving DecidableEq

/-- Response value of the classify-url endpoint: either a JSON body
`{url, classification, source}` or an HTTPException status code. -/
inductive ClassifyResponse where
  | ok : String → String → String → ClassifyResponse
  | httpError : Nat → ClassifyResponse
deriving DecidableEq

/-- What one `classify_url` request did: its response, the database
afterwards, and whether `gpt_classification` was invoked. -/
structure ClassifyOutcome where
  response : ClassifyResponse
  db : DB
  pipelineCalled : Bool
deriving DecidableEq

/-- `api_keys_collection.find_one({"api_key": api_key, "status": "active"})`:
first document matching both fields. -/
def find_active_key (db : DB) (api_key : String) : Option APIKey :=
  db.api_keys.find? (fun k => k.api_key == api_key && k.status == "active")

/-- The rate-limit test of `classify_url`:
`rate_limit is not None and usage_count >= rate_limit`. -/
def rate_limit_exceeded (kd : APIKey) : Bool :=
  match kd.rate_limit with
  | none => false
  | some r => decide (r ≤ kd.usage_count)

/-- `classified_urls_collection.find_one({"url": url})`. -/
def find_classified (db : DB) (url : String) : Option ClassifiedUrl :=
  db.classified_urls.find? (fun e => e.url == url)

/-- `api_keys_collection.update_one({"api_key": api_key},
{"$inc": {"usage_count": 1}})`: increment `usage_count` of the first
matching document. -/
def inc_usage (keys : List APIKey) (api_key : String) : List APIKey :=
  match keys with
  | [] => []
  | k :: rest =>
    if k.api_key == api_key then
      { k with usage_count := k.usage_count + 1 } :: rest
    else k :: inc_usage rest api_key

/-- Embedding of the `classify_url` endpoint of `main.py`: validate the
API key, enforce the rate limit, short-circuit on a cached entry, and
otherwise invoke the pipeline, persist its result with a timestamp and
increment the key's usage count.  `pipelineResult` is the value
`gpt_classification` would return for this URL and `now` the current
timestamp. -/
def classify_url (db : DB) (url api_key : String) (pipelineResult : String)
    (now : Nat) : ClassifyOutcome :=
  match find_active_key db api_key with
  | none => ⟨.httpError 403, db, false⟩
  | some kd =>
    if rate_limit_exceeded kd then ⟨.httpError 429, db, false⟩
    else
      match find_classified db url with
      | some entry => ⟨.ok url entry.classification "cached", db, false⟩
      | none =>
        let db1 : DB :=
          { db with classified_urls := db.classified_urls ++ [⟨url, pipelineResult, now⟩] }
        let db2 : DB := { db1 with api_keys := inc_usage db1.api_keys api_key }
        ⟨.ok url pipelineResult "processed", db2, true⟩

/-- Embedding of the `poll_classification` endpoint of `main.py`: look up
the stored classification for a URL, 404 when absent. -/
def poll_classification (db : DB) (url : String) : Except Nat ClassifiedUrl :=
  match find_classified db url with
  | none => .error 404
  | some entry => .ok entry

-- Helper: `find?` over an appended singleton when the front part has no
-- match.

lemma find?_append_singleton {α : Type} (p : α → Bool) (l : List α) (e : α)
    (h : l.find? p = none) (he : p e = true) :
    (l ++ [e]).find? p = some e := by
  induction l with
  | nil => simp [List.find?, he]
  | cons a as ih =>
    rw [List.find?_eq_none] at h
    have ha : ¬ p a = true := h a (by simp)
    have has : as.find? p = none := by
      rw [List.find?_eq_none]
      intro x hx
      exact h x (by simp [hx])
    rw [List.cons_append, List.find?_cons_of_neg _ ha]
    exact ih has

/-- C8: when the pipeline returns the sentinel `"classification failure"`
for a new URL, `classify_url` persists it exactly like a canonical label:
the stored entry carries the sentinel, `poll_classification` answers with
it, and any subsequent `classify_url` request for the same URL that passes
the key and rate-limit checks is answered from the cache with the sentinel
and without invoking the pipeline again. -/
theorem c8_failure_sentinel_cached (db : DB) (url key : String) (now : Nat)
    (kd : APIKey)
    (hfind : find_active_key db key = some kd)
    (hrl : rate_limit_exceeded kd = false)
    (hnew : find_classified db url = none) :
    find_classified (classify_url db url key "classification failure" now).db url
      = some ⟨url, "classification failure", now⟩
    ∧ poll_classification (classify_url db url key "classification failure" now).db url
      = .ok ⟨url, "classification failure", now⟩
    ∧ (∀ (key2 : String) (kd2 : APIKey) (pr2 : String) (now2 : Nat),
        find_active_key (classify_url db url key "classification failure" now).db key2
          = some kd2 →
        rate_limit_exceeded kd2 = false →
        classify_url (classify_url db url key "classification failure" now).db
            url key2 pr2 now2
          = ⟨.ok url "classification failure" "cached",
             (classify_url db url key "classification failure" now).db, false⟩) := by
  have hdb : (classify_url db url key "classification failure" now).db =
      DB.mk (inc_usage db.api_keys key)
        (db.classified_urls ++ [⟨url, "classification failure", now⟩]) := by
    simp [classify_url, hfind, hrl, hnew]
  have hfc : find_classified
      (classify_url db url key "classification failure" now).db url
      = some ⟨url, "classification failure", now⟩ := by
    rw [hdb]
    unfold find_classified at hnew ⊢
    exact find?_append_singleton _ _ _ hnew (by simp)
  refine ⟨hfc, ?_, ?_⟩
  · simp [poll_classification, hfc]
  · intro key2 kd2 pr2 now2 hf2 hr2
    rw [hdb] at hf2 hfc ⊢
    simp [classify_url, hf2, hr2, hfc]

/-- Database for the C8 witness: one fresh active key, empty cache. -/
def db0 : DB := ⟨[⟨"k1", 0, "active", some 10, 0⟩], []⟩

/-- Witness for C8: after a failed classification of `"example.com"` the
sentinel is stored, and a second request is served from the cache without
a pipeline call. -/
theorem c8_failure_sentinel_cached_witness :
    find_classified
      (classify_url db0 "example.com" "k1" "classification failure" 5).db
      "example.com" = some ⟨"example.com", "classification failure", 5⟩
    ∧ classify_url
        (classify_url db0 "example.com" "k1" "classification failure" 5).db
        "example.com" "k1" "live website" 6
      = ⟨.ok "example.com" "classification failure" "cached",
         (classify_url db0 "example.com" "k1" "classification failure" 5).db,
         false⟩ := by
  have h := c8_failure_sentinel_cached db0 "example.com" "k1" 5
    ⟨"k1", 0, "active", some 10, 0⟩ (by decide) (by decide) (by decide)
  exact ⟨h.1, h.2.2 "k1" ⟨"k1", 0, "active", some 10, 1⟩ "live website" 6
    (by decide) (by decide)⟩

/-- Database with one key exactly at its rate limit and a cached entry for
the requested URL. -/
def dbLimited : DB :=
  ⟨[⟨"k1", 0, "active", some 1, 1⟩], [⟨"example.com", "live website", 3⟩]⟩

/-- C9 counterexample: a cached lookup is still subject to the rate limit.
With the key at its limit and the URL already cached, `classify_url`
answers 429 instead of the cached classification, so cached lookups are
not exempt from the key's rate limit. -/
theorem c9_counterexample :
    classify_url dbLimited "example.com" "k1" "live website" 9
      = ⟨.httpError 429, dbLimited, false⟩
    ∧ find_classified dbLimited "example.com"
      = some ⟨"example.com", "live website", 3⟩ := by
  refine ⟨by decide, by decide⟩

/-- C9 amended: a cache hit that passes the key and rate-limit checks
returns the stored classification and leaves the whole database (usage
counts included) unchanged, and the database is unchanged whenever the
pipeline is not invoked; but the rate-limit check runs before the cache
lookup, so a key at its limit receives 429 even for a cached URL. -/
theorem c9_amended_cache_frame (db : DB) (url key pr : String) (now : Nat) :
    (∀ (kd : APIKey) (entry : ClassifiedUrl),
      find_active_key db key = some kd →
      rate_limit_exceeded kd = false →
      find_classified db url = some entry →
      classify_url db url key pr now
        = ⟨.ok url entry.classification "cached", db, false⟩)
    ∧ (∀ kd : APIKey, find_active_key db key = some kd →
      rate_limit_exceeded kd = true →
      classify_url db url key pr now = ⟨.httpError 429, db, false⟩)
    ∧ ((classify_url db url key pr now).pipelineCalled = false →
      (classify_url db url key pr now).db = db) := by
  refine ⟨?_, ?_, ?_⟩
  · intro kd entry hf hr hc
    simp [classify_url, hf, hr, hc]
  · intro kd hf hr
    simp [classify_url, hf, hr]
  · intro h
    cases hf : find_active_key db key with
    | none => simp [classify_url, hf]
    | some kd =>
      by_cases hr : rate_limit_exceeded kd = true
      · simp [classify_url, hf, hr]
      · have hr' : rate_limit_exceeded kd = false := by simpa using hr
        cases hc : find_classified db url with
        | some entry => simp [classify_url, hf, hr', hc]
        | none => simp [classify_url, hf, hr', hc] at h

/-- Database with a fresh key and a cached entry, for the C9 witness. -/
def dbCached : DB :=
  ⟨[⟨"k2", 0, "active", some 10, 0⟩], [⟨"example.org", "live website", 3⟩]⟩

/-- Witness for C9 amended: a cache hit leaves the database untouched, and
a key at its limit gets 429. -/
theorem c9_amended_cache_frame_witness :
    classify_url dbCached "example.org" "k2" "nonactive domain" 9
      = ⟨.ok "example.org" "live website" "cached", dbCached, false⟩
    ∧ classify_url dbLimited "example.com" "k1" "live website" 9
      = ⟨.httpError 429, dbLimited, false⟩ :=
  ⟨(c9_amended_cache_frame dbCached "example.org" "k2" "nonactive domain" 9).1
      ⟨"k2", 0, "active", some 10, 0⟩ ⟨"example.org", "live website", 3⟩
      (by decide) (by decide) (by decide),
   (c9_amended_cache_frame dbLimited "example.com" "k1" "live website" 9).2.1
      ⟨"k1", 0, "active", some 1, 1⟩ (by decide) (by decide)⟩
